import Mathlib

/-!
Verification of the hotkey dispatcher, prompt construction, error paths,
startup check and shell-escaping of `src/main.py` (TextMeaningFinderbyLLM),
via a shallow embedding of the Python code into Lean.
-/

/-- Mode constant `MODE_MEANING = "meaning"` (main.py line 33). -/
def MODE_MEANING : String := "meaning"

/-- Mode constant `MODE_TRANSLATE = "translate"` (main.py line 34). -/
def MODE_TRANSLATE : String := "translate"

/-- Fixed translate trigger `TRANSLATE_SHORTCUT_KEY = "."` (main.py line 27). -/
def TRANSLATE_SHORTCUT_KEY : String := "."

/-- A special key of the pynput `keyboard.Key` enumeration.  The dispatcher
only ever puts `cmd`, `shift`, `ctrl`, `alt` into `required_modifiers`;
`other n` stands for the remaining enumeration members. -/
inductive SpecKey where
  | cmd
  | shift
  | ctrl
  | alt
  | other (n : Nat)
deriving DecidableEq, Repr

/-- A key event value as delivered by pynput to `on_key_press` /
`on_key_release`:
* `special k` is a `keyboard.Key` member — it exposes neither a `char` nor a
  `vk` attribute, so in `on_key_press` neither classification branch runs;
* `charCode c vk` is a `keyboard.KeyCode` exposing a `char` attribute (whose
  value may be `None`) and possibly a `vk`;
* `vkOnly vk` is a key event that exposes no `char` attribute, only a raw
  `vk` key code — the shape for which the code's `elif hasattr(key, 'vk')`
  fallback fires. -/
inductive PKey where
  | special (k : SpecKey)
  | charCode (c : Option Char) (vk : Option Nat)
  | vkOnly (vk : Option Nat)
deriving DecidableEq, Repr

/-- Configuration read at startup: `SHORTCUT_KEY` (main.py line 25) and
`SHORTCUT_MODIFIER` already split on `+` (main.py line 26). -/
structure AppConfig where
  SHORTCUT_KEY : String
  SHORTCUT_MODIFIER : List String
deriving DecidableEq, Repr

/-- The `modifier_map` dictionary of `setup_keyboard_listener`
(main.py lines 163-168). -/
def modifier_map (s : String) : Option SpecKey :=
  if s = "cmd" then some SpecKey.cmd
  else if s = "shift" then some SpecKey.shift
  else if s = "ctrl" then some SpecKey.ctrl
  else if s = "alt" then some SpecKey.alt
  else none

/-- The loop of `setup_keyboard_listener` building `self.required_modifiers`
(main.py lines 171-174): names found in `modifier_map` are inserted, all
other names are skipped. -/
def buildRequiredModifiers (mods : List String) : Finset SpecKey :=
  mods.foldl
    (fun acc m =>
      match modifier_map m with
      | some k => insert k acc
      | none => acc)
    ∅

/-- `self.required_modifiers` for a given configuration. -/
def required_modifiers (cfg : AppConfig) : Finset SpecKey :=
  buildRequiredModifiers cfg.SHORTCUT_MODIFIER

/-- `self.required_modifiers` as a set of key-event values (its members are
`keyboard.Key` objects, i.e. `PKey.special` values). -/
def requiredPKeys (cfg : AppConfig) : Finset PKey :=
  (required_modifiers cfg).image PKey.special

/-- Mutable dispatcher state: `self.current_mode` (main.py line 88) and
`self.current_modifiers` (main.py line 179). -/
structure AppState where
  current_mode : String
  current_modifiers : Finset PKey
deriving DecidableEq

/-- State after `__init__` and `setup_keyboard_listener`:
`current_mode = MODE_MEANING`, `current_modifiers = set()`. -/
def initialState : AppState :=
  { current_mode := MODE_MEANING, current_modifiers := ∅ }

/-- The guard `isinstance(key, keyboard.KeyCode) and key.vk in [0, 255]`
(main.py lines 195 and 239): true exactly for `KeyCode` events whose `vk`
is one of the vendor sentinel values 0 and 255. -/
def isSentinelEvent : PKey → Bool
  | PKey.special _ => false
  | PKey.charCode _ vk => decide (vk = some 0 ∨ vk = some 255)
  | PKey.vkOnly vk => decide (vk = some 0 ∨ vk = some 255)

/-- Python comparison `key.char == s` where `key.char : Optional[str]` and
`s` is a (nonignorable) configuration string: `None` compares unequal to
every string, a character compares as its one-character string. -/
def charMatches (c : Option Char) (s : String) : Bool :=
  match c with
  | some ch => String.singleton ch = s
  | none => false

/-- Trigger classification of `on_key_press` (main.py lines 206-220),
returning `(is_meaning_shortcut, is_translate_shortcut)`:
a key with a `char` attribute is compared (as a string) against
`SHORTCUT_KEY` and `TRANSLATE_SHORTCUT_KEY`; a key exposing only `vk`
falls back to the raw key-code comparisons `vk == 44` (comma) and
`vk == 46` (period); a `keyboard.Key` member matches neither. -/
def classifyShortcut (cfg : AppConfig) (key : PKey) : Bool × Bool :=
  match key with
  | PKey.special _ => (false, false)
  | PKey.charCode c _ =>
      (charMatches c cfg.SHORTCUT_KEY, charMatches c TRANSLATE_SHORTCUT_KEY)
  | PKey.vkOnly vk =>
      if vk = some 44 then (true, false)
      else if vk = some 46 then (false, true)
      else (false, false)

/-- The membership test `key in self.required_modifiers`
(main.py line 201). -/
def keyInRequired (cfg : AppConfig) (key : PKey) : Bool :=
  match key with
  | PKey.special k => decide (k ∈ required_modifiers cfg)
  | _ => false

/-- `on_key_press` (main.py lines 191-233) as a state transformer.  The
second component records whether a background `process_text` thread was
started and, if so, the mode that was assigned to `current_mode` just
before starting it (`some MODE_MEANING` / `some MODE_TRANSLATE`). -/
def on_key_press (cfg : AppConfig) (st : AppState) (key : PKey) :
    AppState × Option String :=
  if isSentinelEvent key then (st, none)
  else
    let mods :=
      if keyInRequired cfg key then insert key st.current_modifiers
      else st.current_modifiers
    let flags := classifyShortcut cfg key
    if requiredPKeys cfg ⊆ mods then
      if flags.1 then
        ({ current_mode := MODE_MEANING, current_modifiers := mods },
          some MODE_MEANING)
      else if flags.2 then
        ({ current_mode := MODE_TRANSLATE, current_modifiers := mods },
          some MODE_TRANSLATE)
      else ({ st with current_modifiers := mods }, none)
    else ({ st with current_modifiers := mods }, none)

/-- `on_key_release` (main.py lines 235-249) as a state transformer. -/
def on_key_release (_cfg : AppConfig) (st : AppState) (key : PKey) : AppState :=
  if isSentinelEvent key then st
  else if key ∈ st.current_modifiers then
    { st with current_modifiers := st.current_modifiers.erase key }
  else st

/-- A key event delivered to the listener. -/
inductive KeyEvent where
  | press (k : PKey)
  | release (k : PKey)
deriving DecidableEq, Repr

/-- One listener callback invocation. -/
def stepEvent (cfg : AppConfig) (st : AppState) : KeyEvent → AppState
  | KeyEvent.press k => (on_key_press cfg st k).1
  | KeyEvent.release k => on_key_release cfg st k

/-- A sequence of listener callback invocations. -/
def runEvents (cfg : AppConfig) (st : AppState) (evs : List KeyEvent) :
    AppState :=
  evs.foldl (stepEvent cfg) st

/-- Physical hold tracking: after an event, a key is down exactly when its
last press/release event was a press. -/
def heldUpdate (h : PKey → Bool) (e : KeyEvent) : PKey → Bool :=
  fun k =>
    match e with
    | KeyEvent.press k2 => if k = k2 then true else h k
    | KeyEvent.release k2 => if k = k2 then false else h k

/-- Keys physically down after a sequence of events, starting from the
hold assignment `h`. -/
def heldAfterFrom (h : PKey → Bool) (evs : List KeyEvent) : PKey → Bool :=
  evs.foldl heldUpdate h

/-- Keys physically down after a sequence of events (all keys up at start). -/
def heldAfter (evs : List KeyEvent) : PKey → Bool :=
  heldAfterFrom (fun _ => false) evs

/-- The whitespace class stripped by Python `str.strip()`: exactly the
characters for which `str.isspace()` holds (codepoints 0x09-0x0D,
0x1C-0x1F, 0x20, 0x85 NEL, 0xA0 NBSP, 0x1680 Ogham space, 0x2000-0x200A,
0x2028, 0x2029, 0x202F, 0x205F and 0x3000 the ideographic space). -/
def pyIsSpace (c : Char) : Bool :=
  let n := c.toNat
  (0x09 ≤ n && n ≤ 0x0D) || n = 0x20 || (0x1C ≤ n && n ≤ 0x1F) ||
    n = 0x85 || n = 0xA0 || n = 0x1680 || (0x2000 ≤ n && n ≤ 0x200A) ||
    n = 0x2028 || n = 0x2029 || n = 0x202F || n = 0x205F || n = 0x3000

/-- Python `s.strip()`: remove leading and trailing whitespace. -/
def strip (s : String) : String :=
  ⟨((s.data.dropWhile pyIsSpace).reverse.dropWhile pyIsSpace).reverse⟩

/-- Literal part of the translate-mode f-string before `{text}`
(main.py lines 330-336). -/
def trPromptA : String :=
  "\n                次のテキストについて、以下の2点を出力してください：\n                1. 日本語訳\n                2. 重要な単語や表現の類似語/同義語（英語で3-5個）\n\n                テキスト：\n                "

/-- Literal part of the translate-mode f-string after `{text}`
(main.py lines 336-346). -/
def trPromptB : String :=
  "\n\n                出力形式：\n                【日本語訳】\n                （翻訳文）\n\n                【Similar Expressions】\n                ・(synonym/related word 1)\n                ・(synonym/related word 2)\n                ・(synonym/related word 3)\n                "

/-- Literal part of the meaning-mode f-string before `{text}`
(main.py lines 349-354). -/
def mePromptA : String :=
  "\n                次のテキストの内容を、50-100文字程度の日本語で簡潔に説明してください。\n                専門用語がある場合は、その短い説明も含めてください。\n\n                テキスト：\n                "

/-- Literal part of the meaning-mode f-string after `{text}`
(main.py lines 354-355). -/
def mePromptB : String :=
  "\n                "

/-- Prompt and dialog title chosen by `query_llm` from `current_mode`
(main.py lines 328-356): the translate template and title when the mode is
`MODE_TRANSLATE`, the explanation template and title otherwise. -/
def query_prompt_title (mode text : String) : String × String :=
  if mode = MODE_TRANSLATE then
    (trPromptA ++ text ++ trPromptB, "翻訳結果と類似表現")
  else
    (mePromptA ++ text ++ mePromptB, "テキストの要約")

/-- Observable side effects of a background task. -/
inductive Effect where
  | copyChord
  | notify (title message : String) (sound : Bool)
  | inferCall (prompt : String)
  | showDialog (title message : String)
deriving DecidableEq, Repr

/-- Recognizer for notification effects. -/
def isNotifyEffect : Effect → Bool
  | Effect.notify _ _ _ => true
  | _ => false

/-- Recognizer for result-dialog effects. -/
def isDialogEffect : Effect → Bool
  | Effect.showDialog _ _ => true
  | _ => false

/-- Recognizer for model-inference calls. -/
def isInferEffect : Effect → Bool
  | Effect.inferCall _ => true
  | _ => false

/-- `query_llm` (main.py lines 323-371) as an effect trace.  The external
inference call `self.model.generate_content(prompt)` is modelled by its
outcome `resp`: on success the stripped response text is shown in a dialog
titled per the mode; on an exception exactly one error notification carrying
the underlying message is emitted, the exception is swallowed, and nothing
is retried. -/
def query_llm (mode text : String) (resp : Except String String) :
    List Effect :=
  let pt := query_prompt_title mode text
  Effect.inferCall pt.1 ::
    (match resp with
     | Except.ok r => [Effect.showDialog pt.2 (strip r)]
     | Except.error e =>
         [Effect.notify "エラー" ("処理中にエラーが発生しました: " ++ e) true])

/-- `process_text` (main.py lines 273-321) as an effect trace: synthesize the
copy chord, read the clipboard (modelled by its content `clip`), strip it;
an empty result aborts with the "no selection" notification, otherwise the
`query_llm` task runs on the stripped text. -/
def process_text (mode clip : String) (resp : Except String String) :
    List Effect :=
  Effect.copyChord ::
    (let selected_text := strip clip
     if selected_text = "" then
       [Effect.notify "テキスト未選択"
          "テキストを選択してからショートカットキーを押してください" true]
     else query_llm mode selected_text resp)

/-- Observable startup-time effects of the `__main__` block. -/
inductive StartupEffect where
  | alertNotify
  | constructApp
  | runApp
deriving DecidableEq, Repr

/-- Python truthiness of the `os.getenv` result: `None` and the empty
string are falsy, every other string is truthy. -/
def pyTruthy : Option String → Bool
  | none => false
  | some s => s != ""

/-- The `__main__` block (main.py lines 390-402): if `not API_KEY`, show the
configuration alert and exit with status 1, constructing nothing; otherwise
construct and run the app (the script then ends with status 0 on a normal
quit). -/
def main_block (apiKey : Option String) : List StartupEffect × Option Nat :=
  if pyTruthy apiKey then
    ([StartupEffect.constructApp, StartupEffect.runApp], some 0)
  else
    ([StartupEffect.alertNotify], some 1)

/-- The double-quote character. -/
def dquoteChar : Char := '"'

/-- The single-quote character (codepoint 39). -/
def squoteChar : Char := Char.ofNat 39

/-- The backslash character. -/
def bslashChar : Char := '\\'

/-- The single-quote character as a string. -/
def squoteStr : String := String.singleton squoteChar

/-- Python `s.replace(old, new)` for a one-character pattern `old`: every
occurrence of the character is replaced by `new`. -/
def pyReplaceChar (s : String) (old : Char) (new : List Char) : String :=
  ⟨s.data.flatMap (fun c => if c = old then new else [c])⟩

/-- The escaping applied by `show_notification` and `show_result` to both
`message` and `title` (main.py lines 49-50 and 66-67):
`.replace(chr(34), chr(92) ++ chr(34)).replace(chr(39), chr(92) ++ chr(39))`. -/
def escapeSpecial (s : String) : String :=
  pyReplaceChar (pyReplaceChar s dquoteChar [bslashChar, dquoteChar])
    squoteChar [bslashChar, squoteChar]

/-- Modelled from the spec and claim wording, for comparison: per-character
escaping that replaces a double quote by backslash-double-quote, a single
quote by backslash-single-quote, and keeps every other character. -/
def escapedCharSpec (c : Char) : List Char :=
  if c = dquoteChar then [bslashChar, dquoteChar]
  else if c = squoteChar then [bslashChar, squoteChar]
  else [c]

/-- The `osascript` command string built by `show_notification`
(main.py line 53), with the escaped message and title spliced in. -/
def show_notification_cmd (title message : String) : String :=
  let message := escapeSpecial message
  let title := escapeSpecial title
  "osascript -e " ++ squoteStr ++ "display notification \"" ++ message ++
    "\" with title \"" ++ title ++ "\"" ++ squoteStr

/-- The `osascript` command string built by `show_result`
(main.py line 70), with the escaped message and title spliced in. -/
def show_result_cmd (title message : String) : String :=
  let message := escapeSpecial message
  let title := escapeSpecial title
  "osascript -e " ++ squoteStr ++ "display dialog \"" ++ message ++
    "\" with title \"" ++ title ++
    "\" buttons \x7b\"OK\"\x7d default button \"OK\" with icon note" ++
    squoteStr ++ " "

/-- The configuration resulting from the default environment values
`SHORTCUT_KEY = ","`, `SHORTCUT_MODIFIER = "cmd+shift"`. -/
def defaultConfig : AppConfig :=
  { SHORTCUT_KEY := ",", SHORTCUT_MODIFIER := ["cmd", "shift"] }

/-- A configuration whose modifier list contains only unrecognized names. -/
def unrecognizedConfig : AppConfig :=
  { SHORTCUT_KEY := ",", SHORTCUT_MODIFIER := ["hyper", "fn"] }

/-- A state in which both default modifiers are held. -/
def bothHeldState : AppState :=
  { current_mode := MODE_MEANING,
    current_modifiers := {PKey.special SpecKey.cmd, PKey.special SpecKey.shift} }

lemma keyInRequired_iff (cfg : AppConfig) (key : PKey) :
    keyInRequired cfg key = true ↔ key ∈ requiredPKeys cfg := by
  cases key with
  | special k =>
      simp only [keyInRequired, requiredPKeys, Finset.mem_image,
        decide_eq_true_eq]
      constructor
      · intro h; exact ⟨k, h, rfl⟩
      · rintro ⟨a, ha, he⟩
        cases he
        exact ha
  | charCode c v =>
      simp [keyInRequired, requiredPKeys, Finset.mem_image]
  | vkOnly v =>
      simp [keyInRequired, requiredPKeys, Finset.mem_image]

lemma sentinel_keyInRequired (cfg : AppConfig) (key : PKey)
    (h : isSentinelEvent key = true) : keyInRequired cfg key = false := by
  cases key <;> simp_all [isSentinelEvent, keyInRequired]

lemma inRequired_classify (cfg : AppConfig) (key : PKey)
    (h : keyInRequired cfg key = true) :
    classifyShortcut cfg key = (false, false) := by
  cases key <;> simp_all [keyInRequired, classifyShortcut]

lemma on_key_press_spec (cfg : AppConfig) (st : AppState) (key : PKey) :
    (((on_key_press cfg st key).2).isSome = true ↔
      (isSentinelEvent key = false ∧
        requiredPKeys cfg ⊆ st.current_modifiers ∧
        ((classifyShortcut cfg key).1 = true ∨
          (classifyShortcut cfg key).2 = true))) ∧
    (on_key_press cfg st key).1.current_mode =
      ((on_key_press cfg st key).2).getD st.current_mode ∧
    (on_key_press cfg st key).1.current_modifiers =
      (if keyInRequired cfg key then insert key st.current_modifiers
       else st.current_modifiers) := by
  by_cases hs : isSentinelEvent key
  · rw [sentinel_keyInRequired cfg key hs]
    simp [on_key_press, hs]
  · by_cases hk : keyInRequired cfg key
    · have hcl := inRequired_classify cfg key hk
      have hmem := (keyInRequired_iff cfg key).mp hk
      simp only [on_key_press, hs, if_false, hk, if_true, hcl,
        Bool.false_eq_true, Option.isSome_none, Option.getD_none]
      constructor
      · simp
      · split <;> simp
    · simp only [on_key_press, hs, if_false, hk, Bool.false_eq_true]
      by_cases hsub : requiredPKeys cfg ⊆ st.current_modifiers
      · by_cases f1 : (classifyShortcut cfg key).1
        · simp [hsub, f1, hs]
        · by_cases f2 : (classifyShortcut cfg key).2 <;>
            simp [hsub, f1, f2, hs]
      · simp [hsub, hs]

/-- Claim C8: a key event whose key code is one of the vendor sentinel
values (`vk` 0 or 255 on a `KeyCode`) makes both handlers return
immediately: the state (mode and held modifiers) is unchanged and no
action is enqueued. -/
theorem c8_sentinel_ignored (cfg : AppConfig) (st : AppState) (key : PKey)
    (h : isSentinelEvent key = true) :
    on_key_press cfg st key = (st, none) ∧ on_key_release cfg st key = st := by
  constructor
  · simp [on_key_press, h]
  · simp [on_key_release, h]

/-- Witness for C8 at the concrete sentinel event `vk = 0` with the default
configuration and initial state. -/
theorem c8_sentinel_ignored_witness :
    isSentinelEvent (PKey.vkOnly (some 0)) = true ∧
    on_key_press defaultConfig initialState (PKey.vkOnly (some 0)) =
      (initialState, none) ∧
    on_key_release defaultConfig initialState (PKey.vkOnly (some 0)) =
      initialState :=
  ⟨by decide,
    (c8_sentinel_ignored defaultConfig initialState (PKey.vkOnly (some 0))
      (by decide)).1,
    (c8_sentinel_ignored defaultConfig initialState (PKey.vkOnly (some 0))
      (by decide)).2⟩

/-- Counterexample to claim C7 as stated: an API key that is present but
equal to the empty string ("present" as a configuration value) still makes
the `__main__` block show the alert and exit with status 1 instead of
starting the application. -/
theorem c7_missing_key_counterexample :
    (some "" : Option String).isSome = true ∧
    main_block (some "") = ([StartupEffect.alertNotify], some 1) := by
  constructor
  · rfl
  · rfl

/-- Claim C7 (amended): if the API key is absent **or empty**, the process
shows the alert and exits with status 1 without constructing or running the
application; for every non-empty key it constructs and runs the application
(normal quit ends the script with status 0). -/
theorem c7_startup_check :
    main_block none = ([StartupEffect.alertNotify], some 1) ∧
    main_block (some "") = ([StartupEffect.alertNotify], some 1) ∧
    (∀ s : String, s ≠ "" →
      main_block (some s) =
        ([StartupEffect.constructApp, StartupEffect.runApp], some 0)) := by
  refine ⟨rfl, rfl, ?_⟩
  intro s hs
  simp [main_block, pyTruthy, hs]

/-- Witness for C7 (amended) at the concrete non-empty key `"k"`. -/
theorem c7_startup_check_witness :
    ("k" : String) ≠ "" ∧
    main_block (some "k") =
      ([StartupEffect.constructApp, StartupEffect.runApp], some 0) :=
  ⟨by decide, c7_startup_check.2.2 "k" (by decide)⟩

/-- Claim C3: a key exposing a `char` attribute is classified purely by
character comparison (its `vk`, if any, is irrelevant), while a key
exposing no character form is classified by the raw key-code fallback:
meaning trigger exactly at code 44 (comma), translate trigger exactly at
code 46 (period). -/
theorem c3_char_and_keycode_classification (cfg : AppConfig)
    (c : Option Char) (v v2 : Option Nat) (n : Option Nat) :
    classifyShortcut cfg (PKey.charCode c v) =
      (charMatches c cfg.SHORTCUT_KEY, charMatches c TRANSLATE_SHORTCUT_KEY) ∧
    classifyShortcut cfg (PKey.charCode c v) =
      classifyShortcut cfg (PKey.charCode c v2) ∧
    classifyShortcut cfg (PKey.vkOnly n) =
      (decide (n = some 44), decide (n = some 46)) := by
  refine ⟨rfl, rfl, ?_⟩
  by_cases h44 : n = some 44
  · simp [classifyShortcut, h44]
  · by_cases h46 : n = some 46 <;> simp [classifyShortcut, h44, h46]

/-- Counterexample to claim C1 as stated: with the default configuration
and both required modifiers held, the key-press event `KeyCode` with
character comma and vendor sentinel code 0 matches the meaning trigger by
character, yet `on_key_press` enqueues nothing and changes nothing,
because the sentinel filter runs before trigger classification. -/
theorem c1_trigger_counterexample :
    requiredPKeys defaultConfig ⊆ bothHeldState.current_modifiers ∧
    charMatches (some ',') defaultConfig.SHORTCUT_KEY = true ∧
    (on_key_press defaultConfig bothHeldState
        (PKey.charCode (some ',') (some 0))).2 = none ∧
    (on_key_press defaultConfig bothHeldState
        (PKey.charCode (some ',') (some 0))).1 = bothHeldState := by
  refine ⟨by decide, by decide, ?_, ?_⟩ <;> rfl

/-- Claim C1 (amended): for every key-press event delivered to the
dispatcher, an action is enqueued if and only if the event is not a vendor
sentinel event (`vk` 0 or 255 on a `KeyCode`) AND the held-modifier set is
a superset of the configured required modifiers AND the pressed key matches
the meaning trigger or the translate trigger (character match, or the raw
key-code fallback); moreover the resulting mode equals the enqueued
action's mode when one fires and is unchanged otherwise. -/
theorem c1_trigger_fires_iff (cfg : AppConfig) (st : AppState) (key : PKey) :
    (((on_key_press cfg st key).2).isSome = true ↔
      (isSentinelEvent key = false ∧
        requiredPKeys cfg ⊆ st.current_modifiers ∧
        ((classifyShortcut cfg key).1 = true ∨
          (classifyShortcut cfg key).2 = true))) ∧
    (on_key_press cfg st key).1.current_mode =
      ((on_key_press cfg st key).2).getD st.current_mode :=
  ⟨(on_key_press_spec cfg st key).1, (on_key_press_spec cfg st key).2.1⟩

/-- Witness for C1 (amended): a genuine comma press (`vk` 43) with both
default modifiers held does enqueue an action. -/
theorem c1_trigger_fires_iff_witness :
    ((on_key_press defaultConfig bothHeldState
        (PKey.charCode (some ',') (some 43))).2).isSome = true :=
  (c1_trigger_fires_iff defaultConfig bothHeldState
      (PKey.charCode (some ',') (some 43))).1.mpr
    ⟨by decide, by decide, by decide⟩

/-- Claim C6: a failing inference call produces exactly the trace of one
inference attempt followed by exactly one error notification whose message
carries the underlying error text; no result dialog is shown, the call is
not retried, and the task terminates normally (the error is swallowed). -/
theorem c6_inference_error_notification (mode text e : String) :
    query_llm mode text (Except.error e) =
      [Effect.inferCall (query_prompt_title mode text).1,
       Effect.notify "エラー" ("処理中にエラーが発生しました: " ++ e) true] ∧
    (query_llm mode text (Except.error e)).countP isNotifyEffect = 1 ∧
    (query_llm mode text (Except.error e)).countP isDialogEffect = 0 ∧
    (query_llm mode text (Except.error e)).countP isInferEffect = 1 := by
  refine ⟨rfl, ?_, ?_, ?_⟩ <;>
    simp [query_llm, List.countP_cons, isNotifyEffect, isDialogEffect,
      isInferEffect]

/-- Claim C5: when the captured clipboard text strips to the empty string,
the background task emits only the copy chord and the "no selection"
notification: no inference call is made and no result dialog is shown. -/
theorem c5_empty_selection_aborts (mode clip : String)
    (resp : Except String String) (h : strip clip = "") :
    process_text mode clip resp =
      [Effect.copyChord,
       Effect.notify "テキスト未選択"
         "テキストを選択してからショートカットキーを押してください" true] ∧
    (process_text mode clip resp).countP isInferEffect = 0 ∧
    (process_text mode clip resp).countP isDialogEffect = 0 := by
  refine ⟨?_, ?_, ?_⟩ <;>
    simp [process_text, h, List.countP_cons, isInferEffect, isDialogEffect]

/-- Witness for C5 at the concrete whitespace-only clipboard text. -/
theorem c5_empty_selection_aborts_witness :
    strip "  " = "" ∧
    process_text MODE_MEANING "  " (Except.ok "r") =
      [Effect.copyChord,
       Effect.notify "テキスト未選択"
         "テキストを選択してからショートカットキーを押してください" true] :=
  ⟨by decide,
    (c5_empty_selection_aborts MODE_MEANING "  " (Except.ok "r")
      (by decide)).1⟩

/-- Part of the translate template between `{text}` and the translation
marker. -/
def trMark1A : String := "\n\n                出力形式：\n                "

/-- Part of the translate template after the translation marker. -/
def trMark1B : String :=
  "\n                （翻訳文）\n\n                【Similar Expressions】\n                ・(synonym/related word 1)\n                ・(synonym/related word 2)\n                ・(synonym/related word 3)\n                "

/-- Part of the translate template between `{text}` and the
similar-expressions marker. -/
def trMark2A : String :=
  "\n\n                出力形式：\n                【日本語訳】\n                （翻訳文）\n\n                "

/-- Part of the translate template after the similar-expressions marker. -/
def trMark2B : String :=
  "\n                ・(synonym/related word 1)\n                ・(synonym/related word 2)\n                ・(synonym/related word 3)\n                "

/-- Claim C4: in translate mode the constructed query is the fixed translate
template with the input text embedded verbatim, and it contains the literal
markers `【日本語訳】` and `【Similar Expressions】`; in meaning mode it is the
fixed explanation template with the same text; and for every mode value the
constructed query/title pair is one of exactly these two, so template (and
title) choice is the only effect of the mode. -/
theorem c4_prompt_templates (text : String) :
    query_prompt_title MODE_TRANSLATE text =
      (trPromptA ++ text ++ trPromptB, "翻訳結果と類似表現") ∧
    query_prompt_title MODE_MEANING text =
      (mePromptA ++ text ++ mePromptB, "テキストの要約") ∧
    (∃ a b, trPromptA ++ text ++ trPromptB = a ++ "【日本語訳】" ++ b) ∧
    (∃ a b,
      trPromptA ++ text ++ trPromptB = a ++ "【Similar Expressions】" ++ b) ∧
    (∀ m : String,
      query_prompt_title m text = query_prompt_title MODE_TRANSLATE text ∨
      query_prompt_title m text = query_prompt_title MODE_MEANING text) := by
  refine ⟨rfl, ?_, ⟨trPromptA ++ text ++ trMark1A, trMark1B, ?_⟩,
    ⟨trPromptA ++ text ++ trMark2A, trMark2B, ?_⟩, ?_⟩
  · simp only [query_prompt_title]
    rw [if_neg (by decide)]
  · simp only [String.append_assoc]
    rfl
  · simp only [String.append_assoc]
    rfl
  · intro m
    by_cases h : m = MODE_TRANSLATE
    · left
      rw [h]
    · right
      simp only [query_prompt_title, if_neg h]
      rw [if_neg (by decide)]

lemma sentinel_not_required (cfg : AppConfig) (key : PKey)
    (h : isSentinelEvent key = true) : key ∉ requiredPKeys cfg := by
  intro hc
  have := (keyInRequired_iff cfg key).mpr hc
  rw [sentinel_keyInRequired cfg key h] at this
  cases this

lemma stepEvent_mem (cfg : AppConfig) (st : AppState) (e : KeyEvent)
    (h : PKey → Bool)
    (hinv : ∀ k, k ∈ st.current_modifiers ↔
      (k ∈ requiredPKeys cfg ∧ h k = true)) :
    ∀ k, k ∈ (stepEvent cfg st e).current_modifiers ↔
      (k ∈ requiredPKeys cfg ∧ heldUpdate h e k = true) := by
  intro k
  cases e with
  | press kp =>
      have hmods := (on_key_press_spec cfg st kp).2.2
      show k ∈ (on_key_press cfg st kp).1.current_modifiers ↔ _
      rw [hmods]
      by_cases hk : keyInRequired cfg kp
      · simp only [hk, if_true, Finset.mem_insert]
        by_cases hkk : k = kp
        · subst hkk
          simp [heldUpdate, (keyInRequired_iff cfg k).mp hk]
        · simp [heldUpdate, hkk, hinv k]
      · simp only [hk, Bool.false_eq_true, if_false]
        by_cases hkk : k = kp
        · subst hkk
          have hnot : k ∉ requiredPKeys cfg := fun hc => by
            rw [(keyInRequired_iff cfg k).mpr hc] at hk
            exact hk rfl
          simp [heldUpdate, hinv k, hnot]
        · simp [heldUpdate, hkk, hinv k]
  | release kr =>
      show k ∈ (on_key_release cfg st kr).current_modifiers ↔ _
      by_cases hs : isSentinelEvent kr
      · simp only [on_key_release, hs, if_true]
        by_cases hkk : k = kr
        · subst hkk
          have hnot := sentinel_not_required cfg k hs
          simp [heldUpdate, hinv k, hnot]
        · simp [heldUpdate, hkk, hinv k]
      · simp only [on_key_release, hs, Bool.false_eq_true, if_false]
        by_cases hin : kr ∈ st.current_modifiers
        · simp only [hin, if_true, Finset.mem_erase]
          by_cases hkk : k = kr
          · subst hkk
            simp [heldUpdate]
          · simp [heldUpdate, hkk, hinv k]
        · simp only [hin, if_false]
          by_cases hkk : k = kr
          · subst hkk
            simp [heldUpdate, hin]
          · simp [heldUpdate, hkk, hinv k]

lemma runEvents_mem (cfg : AppConfig) :
    ∀ (evs : List KeyEvent) (st : AppState) (h : PKey → Bool),
      (∀ k, k ∈ st.current_modifiers ↔
        (k ∈ requiredPKeys cfg ∧ h k = true)) →
      ∀ k, k ∈ (runEvents cfg st evs).current_modifiers ↔
        (k ∈ requiredPKeys cfg ∧ heldAfterFrom h evs k = true) := by
  intro evs
  induction evs with
  | nil => intro st h hinv k; exact hinv k
  | cons e evs ih =>
      intro st h hinv k
      exact ih (stepEvent cfg st e) (heldUpdate h e)
        (stepEvent_mem cfg st e h hinv) k

/-- Claim C2: starting from the initial state, after any sequence of press
and release events the held-modifier set is a subset of the configured
required modifiers, it contains a key exactly when that key is a configured
modifier whose last event in the sequence was a press (i.e. it is still
physically down), and a key is never retained past a release event for it. -/
theorem c2_held_modifiers_exact (cfg : AppConfig) (evs : List KeyEvent) :
    (runEvents cfg initialState evs).current_modifiers ⊆ requiredPKeys cfg ∧
    (∀ k, k ∈ (runEvents cfg initialState evs).current_modifiers ↔
      (k ∈ requiredPKeys cfg ∧ heldAfter evs k = true)) ∧
    (∀ k, k ∉ (runEvents cfg initialState
      (evs ++ [KeyEvent.release k])).current_modifiers) := by
  have base : ∀ k : PKey, k ∈ initialState.current_modifiers ↔
      (k ∈ requiredPKeys cfg ∧ (fun _ : PKey => false) k = true) := by
    intro k
    simp [initialState]
  have main := runEvents_mem cfg evs initialState _ base
  refine ⟨?_, main, ?_⟩
  · intro k hk
    exact ((main k).mp hk).1
  · intro k hk
    have m2 := runEvents_mem cfg (evs ++ [KeyEvent.release k])
      initialState _ base k
    have hheld := ((m2).mp hk).2
    rw [heldAfterFrom, List.foldl_append] at hheld
    simp [heldUpdate] at hheld

/-- Witness for C2 at a concrete press/release sequence. -/
theorem c2_held_modifiers_exact_witness :
    (runEvents defaultConfig initialState
      [KeyEvent.press (PKey.special SpecKey.cmd),
       KeyEvent.release (PKey.special SpecKey.cmd)]).current_modifiers ⊆
      requiredPKeys defaultConfig :=
  (c2_held_modifiers_exact defaultConfig
    [KeyEvent.press (PKey.special SpecKey.cmd),
     KeyEvent.release (PKey.special SpecKey.cmd)]).1

lemma buildRequiredModifiers_go_mem :
    ∀ (names : List String) (acc : Finset SpecKey) (k : SpecKey),
      k ∈ names.foldl
          (fun acc m =>
            match modifier_map m with
            | some x => insert x acc
            | none => acc)
          acc ↔
        (k ∈ acc ∨ ∃ n ∈ names, modifier_map n = some k) := by
  intro names
  induction names with
  | nil => intro acc k; simp
  | cons m names ih =>
      intro acc k
      simp only [List.foldl_cons]
      cases hm : modifier_map m with
      | none =>
          rw [ih]
          simp only [List.mem_cons]
          constructor
          · rintro (hacc | ⟨n, hn, hs⟩)
            · exact Or.inl hacc
            · exact Or.inr ⟨n, Or.inr hn, hs⟩
          · rintro (hacc | ⟨n, hn | hn, hs⟩)
            · exact Or.inl hacc
            · rw [hn, hm] at hs
              cases hs
            · exact Or.inr ⟨n, hn, hs⟩
      | some x =>
          rw [ih]
          simp only [Finset.mem_insert, List.mem_cons]
          constructor
          · rintro ((hkx | hacc) | ⟨n, hn, hs⟩)
            · exact Or.inr ⟨m, Or.inl rfl, by rw [hm, hkx]⟩
            · exact Or.inl hacc
            · exact Or.inr ⟨n, Or.inr hn, hs⟩
          · rintro (hacc | ⟨n, hn | hn, hs⟩)
            · exact Or.inl (Or.inr hacc)
            · rw [hn, hm] at hs
              cases hs
              exact Or.inl (Or.inl rfl)
            · exact Or.inr ⟨n, hn, hs⟩

/-- Counterexample to claim C9 as stated: with a configuration whose
modifier names are all unrecognized (so the required-modifiers set is
empty) and no modifier held, the comma-character press event carrying the
vendor sentinel code 255 matches the meaning trigger by character yet fires
no action, because the sentinel filter runs first. -/
theorem c9_unrecognized_counterexample :
    required_modifiers unrecognizedConfig = ∅ ∧
    charMatches (some ',') unrecognizedConfig.SHORTCUT_KEY = true ∧
    initialState.current_modifiers = ∅ ∧
    (on_key_press unrecognizedConfig initialState
        (PKey.charCode (some ',') (some 255))).2 = none := by
  refine ⟨by decide, by decide, by decide, ?_⟩
  rfl

/-- Claim C9 (amended): modifier names not in the map are silently dropped
when building the required-modifiers set; if every configured name is
unrecognized the set is empty; and with an empty required set, every
non-sentinel press event matching a trigger fires the action regardless of
which modifiers (possibly none) are held. -/
theorem c9_unrecognized_modifiers_dropped :
    (∀ (names : List String) (k : SpecKey),
      k ∈ buildRequiredModifiers names ↔
        ∃ n ∈ names, modifier_map n = some k) ∧
    (∀ names : List String,
      (∀ n ∈ names, modifier_map n = none) →
      buildRequiredModifiers names = ∅) ∧
    (∀ (cfg : AppConfig) (st : AppState) (key : PKey),
      required_modifiers cfg = ∅ →
      isSentinelEvent key = false →
      ((classifyShortcut cfg key).1 = true ∨
        (classifyShortcut cfg key).2 = true) →
      ((on_key_press cfg st key).2).isSome = true) := by
  refine ⟨?_, ?_, ?_⟩
  · intro names k
    rw [buildRequiredModifiers, buildRequiredModifiers_go_mem]
    simp
  · intro names hall
    apply Finset.eq_empty_iff_forall_not_mem.mpr
    intro k hk
    rw [buildRequiredModifiers, buildRequiredModifiers_go_mem] at hk
    rcases hk with hk | ⟨n, hn, hs⟩
    · simp at hk
    · rw [hall n hn] at hs
      cases hs
  · intro cfg st key hreq hsent hcls
    apply (on_key_press_spec cfg st key).1.mpr
    refine ⟨hsent, ?_, hcls⟩
    rw [requiredPKeys, hreq]
    simp

/-- Witness for C9 (amended) at the all-unrecognized configuration, the
initial (empty-modifier) state and a genuine comma press. -/
theorem c9_unrecognized_modifiers_dropped_witness :
    ((on_key_press unrecognizedConfig initialState
        (PKey.charCode (some ',') none)).2).isSome = true :=
  c9_unrecognized_modifiers_dropped.2.2 unrecognizedConfig initialState
    (PKey.charCode (some ',') none) (by decide) (by decide)
    (Or.inl (by decide))

lemma escape_pass_compose (l : List Char) :
    (l.flatMap (fun c =>
        if c = dquoteChar then [bslashChar, dquoteChar] else [c])).flatMap
      (fun c => if c = squoteChar then [bslashChar, squoteChar] else [c]) =
    l.flatMap escapedCharSpec := by
  induction l with
  | nil => rfl
  | cons c l ih =>
      simp only [List.flatMap_cons, List.flatMap_append]
      rw [ih]
      by_cases h1 : c = dquoteChar
      · subst h1
        have hbs : bslashChar ≠ squoteChar := by decide
        have hdq : dquoteChar ≠ squoteChar := by decide
        simp [escapedCharSpec, hbs, hdq]
      · by_cases h2 : c = squoteChar
        · subst h2
          simp [escapedCharSpec, h1]
        · simp [escapedCharSpec, h1, h2]

/-- Claim C10: the escaping applied by both `show_notification` and
`show_result` replaces, character by character, every double quote by a
backslash-escaped double quote and every single quote by a
backslash-escaped single quote, leaving all other characters unchanged;
and both constructed `osascript` command strings embed exactly the escaped
message and escaped title between their fixed literal segments. -/
theorem c10_shell_escaping (title message : String) :
    (escapeSpecial message).data = message.data.flatMap escapedCharSpec ∧
    (escapeSpecial title).data = title.data.flatMap escapedCharSpec ∧
    show_notification_cmd title message =
      "osascript -e " ++ squoteStr ++ "display notification \"" ++
        escapeSpecial message ++ "\" with title \"" ++ escapeSpecial title ++
        "\"" ++ squoteStr ∧
    show_result_cmd title message =
      "osascript -e " ++ squoteStr ++ "display dialog \"" ++
        escapeSpecial message ++ "\" with title \"" ++ escapeSpecial title ++
        "\" buttons \x7b\"OK\"\x7d default button \"OK\" with icon note" ++
        squoteStr ++ " " := by
  refine ⟨?_, ?_, rfl, rfl⟩
  · exact escape_pass_compose message.data
  · exact escape_pass_compose title.data
